import Mathlib

/-!
Verification development for the yt-telegram-auto-alert bot
(`main.py` and `report_generator.py`).

The Python sources are shallowly embedded: pure fragments become Lean
functions over `List Char` / `String`; every network interaction
(`requests.get`, `feedparser.parse`, `yfinance` history) is an oracle
parameter of type `_ → Option _`, where `none` models an exception at the
call site (the code catches these with `try/except`).  Python `dict`s
(which preserve insertion order and have unique keys) are modelled as
association lists with in-place update.  Prices are modelled as `ℚ`;
the two float-formatting operations (`str(x)` interpolation and
`f"{x:.2f}"`) and the matplotlib sparkline renderer are abstract
function parameters, since the claims under study are about which value
is formatted, not about decimal rendering.
-/

/-- The whitespace class of Python `str.strip` / `str.split` / regex `\s`
for ASCII text: space, tab, newline, carriage return, vertical tab, form feed. -/
def isSpaceChar (c : Char) : Bool :=
  c = ' ' || c = '\t' || c = '\n' || c = '\r' || c = '\x0b' || c = '\x0c'

/-- Drop leading whitespace characters (one side of Python `str.strip`). -/
def stripLeft : List Char → List Char
  | [] => []
  | c :: cs => if isSpaceChar c then stripLeft cs else c :: cs

/-- Python `str.strip()` on a character list: drop whitespace from both ends. -/
def pyStripL (cs : List Char) : List Char :=
  stripLeft ((stripLeft cs.reverse).reverse)

/-- Python `str.strip()`. -/
def pyStrip (s : String) : String :=
  ⟨pyStripL s.toList⟩

/-- Python `str.lower()` (ASCII case mapping; the bot's commands are ASCII). -/
def pyLower (s : String) : String :=
  ⟨s.toList.map Char.toLower⟩

/-- Python `str.startswith(pre)`. -/
def pyStartsWith (s pre : String) : Bool :=
  pre.toList.isPrefixOf s.toList

/-- The regex character class `[0-9A-Za-z_-]` used in every channel-id pattern
of `extract_channel_id_from_url`. -/
def isCidChar (c : Char) : Bool :=
  c.isAlphanum || c = '_' || c = '-'

/-- The anchored pattern `^UC[0-9A-Za-z_-]{20,}$` from
`extract_channel_id_from_url` (main.py line 68): the whole string is `UC`
followed by at least twenty characters of the class. -/
def isCanonicalId (s : String) : Bool :=
  match s.toList with
  | 'U' :: 'C' :: rest => decide (20 ≤ rest.length) && rest.all isCidChar
  | _ => false

/-- Longest prefix of characters in the id class, with the remainder
(the greedy match of `[0-9A-Za-z_-]*`). -/
def takeClassRun : List Char → List Char × List Char
  | [] => ([], [])
  | c :: cs =>
    if isCidChar c then
      let (r, rest) := takeClassRun cs
      (c :: r, rest)
    else ([], c :: cs)

/-- Match a literal character sequence at the front, returning the remainder. -/
def matchLit : List Char → List Char → Option (List Char)
  | [], s => some s
  | _ :: _, [] => none
  | l :: ls, c :: cs => if c = l then matchLit ls cs else none

/-- Greedy `\s*`. -/
def skipWs (cs : List Char) : List Char :=
  cs.dropWhile isSpaceChar

/-- Greedy `\s+`: at least one whitespace character. -/
def skipWs1 : List Char → Option (List Char)
  | [] => none
  | c :: cs => if isSpaceChar c then some (skipWs cs) else none

/-- Capture group `(UC[0-9A-Za-z_-]{20,})`, optionally followed by a literal
closing quote (as in the `"channelId"`/`"externalId"`/href/og:url patterns).
The class is matched greedily; since `"` is not in the class, requiring the
quote right after the maximal run is exactly the regex backtracking result. -/
def tryCapture (needClose : Bool) (s : List Char) : Option String :=
  let (run, rest) := takeClassRun s
  match run with
  | 'U' :: 'C' :: tail =>
    if 20 ≤ tail.length then
      if needClose then
        match rest with
        | '"' :: _ => some ⟨run⟩
        | _ => none
      else some ⟨run⟩
    else none
  | _ => none

/-- Try pattern `/channel/(UC[0-9A-Za-z_-]{20,})` anchored at this position
(main.py line 72). -/
def tryChannelPathAt (s : List Char) : Option String :=
  (matchLit "/channel/".toList s).bind (tryCapture false)

/-- Try pattern `"<field>"\s*:\s*"(UC[0-9A-Za-z_-]{20,})"` anchored at this
position (the `channelId` and `externalId` searches, main.py lines 89 and 100). -/
def tryJsonFieldAt (field : List Char) (s : List Char) : Option String :=
  (matchLit ('"' :: field ++ ['"']) s).bind fun s1 =>
    (matchLit [':'] (skipWs s1)).bind fun s2 =>
      (matchLit ['"'] (skipWs s2)).bind (tryCapture true)

/-- Shared tail `https?://www\.youtube\.com/channel/(UC[0-9A-Za-z_-]{20,})"`
of the href and og:url patterns.  `https?` is deterministic: an `s` right
after `http` must be consumed, since the next required character is `:`. -/
def tryYtChannelUrl (s : List Char) : Option String :=
  (matchLit "http".toList s).bind fun s1 =>
    let s2 := match s1 with
      | 's' :: r => r
      | r => r
    (matchLit "://www.youtube.com/channel/".toList s2).bind (tryCapture true)

/-- Try pattern `href="https?://www\.youtube\.com/channel/(UC...{20,})"`
anchored at this position (main.py line 93). -/
def tryHrefAt (s : List Char) : Option String :=
  (matchLit "href=\"".toList s).bind tryYtChannelUrl

/-- Try pattern `property="og:url"\s+content="https?://www\.youtube\.com/channel/(UC...{20,})"`
anchored at this position (main.py line 96). -/
def tryOgUrlAt (s : List Char) : Option String :=
  (matchLit "property=\"og:url\"".toList s).bind fun s1 =>
    (skipWs1 s1).bind fun s2 =>
      (matchLit "content=\"".toList s2).bind tryYtChannelUrl

/-- `re.search` driver: try the anchored pattern at every position, leftmost
match first. -/
def scanFor (p : List Char → Option String) : List Char → Option String
  | [] => p []
  | c :: cs =>
    match p (c :: cs) with
    | some r => some r
    | none => scanFor p cs

/-- `re.search(r"/channel/(UC[0-9A-Za-z_-]{20,})", url)` (main.py line 72). -/
def searchChannelPath (s : String) : Option String :=
  scanFor tryChannelPathAt s.toList

/-- Search for a `"channelId":"UC..."` JSON field (main.py line 89). -/
def searchChannelId (html : String) : Option String :=
  scanFor (tryJsonFieldAt "channelId".toList) html.toList

/-- Search for an anchor `href="https://www.youtube.com/channel/UC..."`
(main.py line 93). -/
def searchHref (html : String) : Option String :=
  scanFor tryHrefAt html.toList

/-- Search for an `og:url` meta tag referencing `/channel/UC...`
(main.py line 96). -/
def searchOgUrl (html : String) : Option String :=
  scanFor tryOgUrlAt html.toList

/-- Search for an `"externalId":"UC..."` JSON field (main.py line 100). -/
def searchExternalId (html : String) : Option String :=
  scanFor (tryJsonFieldAt "externalId".toList) html.toList

/-- The character class CPython `urllib.parse` accepts inside a URL scheme. -/
def isSchemeChar (c : Char) : Bool :=
  c.isAlphanum || c = '+' || c = '-' || c = '.'

/-- Truthiness of `urlparse(url).scheme` (main.py line 81): a scheme is
present when the text before the first colon is nonempty, starts with an
ASCII letter, and consists of scheme characters. -/
def hasScheme (s : String) : Bool :=
  let cs := s.toList
  let pre := cs.takeWhile (fun c => c ≠ ':')
  decide (pre.length < cs.length) &&
    (match pre with
     | [] => false
     | c :: _ => c.isAlpha) &&
    pre.all isSchemeChar

/-- `fetch_url = url if parsed.scheme else ("https://" + url)` (main.py line 81). -/
def mkFetchUrl (u : String) : String :=
  if hasScheme u then u else "https://" ++ u

/-- First `some` in a list of options (first regex strategy that matches). -/
def firstSome {α : Type} : List (Option α) → Option α
  | [] => none
  | o :: rest =>
    match o with
    | some x => some x
    | none => firstSome rest

/-- `extract_channel_id_from_url` (main.py lines 55-105).  The network is the
oracle `fetch : String → Option String`: `fetch u = some html` models
`requests.get(u, ...).text = html`, and `none` models an exception from the
`try` block (network failure or timeout), which the code swallows and turns
into `return None`.  The second component records whether the network fetch
was reached (instrumentation; the Python function has no such output). -/
def extract_channel_id_from_url (fetch : String → Option String) (url : String) :
    Option String × Bool :=
  if url = "" then (none, false)
  else
    let u := pyStrip url
    if isCanonicalId u then (some u, false)
    else
      match searchChannelPath u with
      | some cid => (some cid, false)
      | none =>
        match fetch (mkFetchUrl u) with
        | none => (none, true)
        | some html =>
          (firstSome [searchChannelId html, searchHref html,
                      searchOgUrl html, searchExternalId html], true)

/-- Association-list model of a Python `dict` (insertion order, unique keys):
lookup. -/
def lookupA {β : Type} : List (String × β) → String → Option β
  | [], _ => none
  | (k, v) :: rest, key => if k = key then some v else lookupA rest key

/-- `dict` update `d[key] = val`: replace in place if the key exists,
else append (insertion order). -/
def upsertA {β : Type} : List (String × β) → String → β → List (String × β)
  | [], key, val => [(key, val)]
  | (k, v) :: rest, key, val =>
    if k = key then (k, val) :: rest else (k, v) :: upsertA rest key val

/-- `del d[key]` (keys are unique, so removing the first occurrence is exact). -/
def removeA {β : Type} : List (String × β) → String → List (String × β)
  | [], _ => []
  | (k, v) :: rest, key => if k = key then rest else (k, v) :: removeA rest key

/-- The channel registry `channels.json`: name → RSS feed URL. -/
abbrev Registry := List (String × String)

/-- The feed state `yt_state.json`: feed URL → last-seen video identifier.
The stored value is itself optional because the code can store Python `None`
when an entry has none of the identifying fields. -/
abbrev YtState := List (String × Option String)

/-- `yt_state.get(rss)`: `None` both when the key is absent and when the
stored value is `None`. -/
def ytGet (st : YtState) (k : String) : Option String :=
  match lookupA st k with
  | some v => v
  | none => none

/-- An entry of a parsed RSS feed, with the fields `check_youtube_and_notify`
and `collect_new_videos` read via `.get`; `none` is an absent field. -/
structure FeedEntry where
  yt_videoid : Option String
  id : Option String
  link : Option String
  title : Option String
  published : Option String
deriving DecidableEq

/-- A parsed feed (`feedparser.parse` result): its entry list. -/
structure Feed where
  entries : List FeedEntry
deriving DecidableEq

/-- Python `a or b` on optional strings: `a` when truthy (present and
nonempty), else `b`. -/
def pyOrS (a b : Option String) : Option String :=
  match a with
  | some s => if s = "" then b else some s
  | none => b

/-- `latest.get("yt_videoid") or latest.get("id") or latest.get("link")`
(main.py line 119): the notified video identifier, preferring the
feed-specific video-id field, then the item id, then the link. -/
def deriveVid (e : FeedEntry) : Option String :=
  pyOrS (pyOrS e.yt_videoid e.id) e.link

/-- A message sent by the bot (`send_msg(chat_id, text)` call). -/
structure Reply where
  chat_id : Int
  text : String
deriving DecidableEq

/-- The notification text (main.py line 126). -/
def notifyText (name title link : String) : String :=
  "🔔 New video from " ++ name ++ "\n" ++ title ++ "\n" ++ link

/-- The body of the per-channel loop of `check_youtube_and_notify`
(main.py lines 110-128) for one registry entry.  The oracle
`feeds : String → Option Feed` models `feedparser.parse`; `none` is an
exception (caught: log and continue).  Returns the updated feed state, the
notifications sent, and whether this channel set `changed`. -/
def checkChannel (feeds : String → Option Feed) (subs : List Int)
    (st : YtState) (name rss : String) : YtState × List Reply × Bool :=
  match feeds rss with
  | none => (st, [], false)
  | some feed =>
    match feed.entries with
    | [] => (st, [], false)
    | latest :: _ =>
      if ytGet st rss = deriveVid latest then (st, [], false)
      else
        (upsertA st rss (deriveVid latest),
         subs.map (fun chat_id =>
           ⟨chat_id, notifyText name (latest.title.getD "No title") (latest.link.getD "")⟩),
         true)

/-- `check_youtube_and_notify(channels, yt_state, subscribers)`
(main.py lines 108-129): fold `checkChannel` over the registry in order.
The Python function mutates `yt_state` in place and returns `changed`;
the model also returns the new state and the sent messages. -/
def check_youtube_and_notify (feeds : String → Option Feed)
    (channels : Registry) (yt0 : YtState) (subs : List Int) :
    YtState × List Reply × Bool :=
  channels.foldl
    (fun acc nr =>
      let r := checkChannel feeds subs acc.1 nr.1 nr.2
      (r.1, acc.2.1 ++ r.2.1, acc.2.2 || r.2.2))
    (yt0, [], false)

/-- A Telegram message as read by the bot: `chat.get("id")` (always present
in the Telegram schema) and `msg.get("text", "")`. -/
structure TgMessage where
  chat_id : Int
  text : String
deriving DecidableEq

/-- One pending update: `u["update_id"]`, `u.get("message")`,
`u.get("edited_message")`. -/
structure TgUpdate where
  update_id : Nat
  message : Option TgMessage
  edited_message : Option TgMessage
deriving DecidableEq

/-- The bot state `tg_state.json`.  `last_update_id` is optional because the
code reads it back with a bare `.get` (main.py line 231), which yields `None`
when the key is absent. -/
structure TgState where
  last_update_id : Option Nat
  subscribers : List Int
deriving DecidableEq

/-- Python `text.split(maxsplit=2)` (main.py line 147): whitespace-run
separators, at most three chunks; the final chunk starts at its first
non-whitespace character and keeps the rest verbatim. -/
def pySplitMax2 (s : String) : List String :=
  let cs1 := s.toList.dropWhile isSpaceChar
  if cs1 = [] then []
  else
    let t1 := cs1.takeWhile (fun c => !isSpaceChar c)
    let r1 := (cs1.dropWhile (fun c => !isSpaceChar c)).dropWhile isSpaceChar
    if r1 = [] then [⟨t1⟩]
    else
      let t2 := r1.takeWhile (fun c => !isSpaceChar c)
      let r2 := (r1.dropWhile (fun c => !isSpaceChar c)).dropWhile isSpaceChar
      if r2 = [] then [⟨t1⟩, ⟨t2⟩]
      else [⟨t1⟩, ⟨t2⟩, ⟨r2⟩]

/-- The `/help` reply text (main.py lines 161-169). -/
def helpText : String :=
  "Commands:\n" ++
  "/start - Subscribe\n" ++
  "/add <name> <channel_id> - Add directly by channel id (UC...)\n" ++
  "/addrss <name> <rss_url> - Add by RSS URL\n" ++
  "/addurl <name> <youtube_url> - Add by any YouTube link or handle\n" ++
  "/remove <name> - Remove channel\n" ++
  "/list - Show tracked channels\n"

/-- The feed-URL template of `/add` and `/addurl` (main.py lines 180, 201). -/
def feedUrlOf (cid : String) : String :=
  "https://www.youtube.com/feeds/videos.xml?channel_id=" ++ cid

/-- Result of handling one message inside the update loop. -/
structure MsgResult where
  channels : Registry
  subs : List Int
  replies : List Reply
  changed : Bool
  resolverCalled : Bool
deriving DecidableEq

/-- The command dispatch of `handle_updates_and_commands` for one message
(main.py lines 152-228), after tokenisation.  The Python locals `parts`,
`cmd`, `arg1`, `arg2` are passed in as parameters by `processMessage`; the
locals assigned inside a branch (`name`, `cid`, `rss`, ...) are pure and are
inlined at their use sites.  `fetch` is the network oracle passed on to
`extract_channel_id_from_url`.  `resolverCalled` instruments whether that
resolver was invoked.  Mutations of `channels.json` on disk (`save_json`)
are not modelled; the returned registry is the mutated dict. -/
def processCmd (fetch : String → Option String) (channels : Registry)
    (subs : List Int) (chat_id : Int) (parts : List String)
    (cmd arg1 arg2 : String) : MsgResult :=
  if cmd = "/start" ∨ cmd = "start" then
    ⟨channels, (if chat_id ∈ subs then subs else subs ++ [chat_id]),
     [⟨chat_id, "You are subscribed! Use /add <name> <channel_id> or /addurl <name> <youtube_url> to add a channel."⟩],
     true, false⟩
  else if cmd = "/help" ∨ cmd = "help" then
    ⟨channels, subs, [⟨chat_id, helpText⟩], false, false⟩
  else if cmd = "/add" ∧ arg1 ≠ "" ∧ arg2 ≠ "" then
    ⟨upsertA channels (pyStrip arg1)
       (feedUrlOf (if pyStartsWith (pyStrip arg2) "UC" then pyStrip arg2
                   else ((extract_channel_id_from_url fetch (pyStrip arg2)).1.getD (pyStrip arg2)))),
     subs,
     [⟨chat_id, "Added channel: " ++ pyStrip arg1 ++ "\n" ++
        feedUrlOf (if pyStartsWith (pyStrip arg2) "UC" then pyStrip arg2
                   else ((extract_channel_id_from_url fetch (pyStrip arg2)).1.getD (pyStrip arg2)))⟩],
     true, !pyStartsWith (pyStrip arg2) "UC"⟩
  else if cmd = "/addrss" ∧ arg1 ≠ "" ∧ arg2 ≠ "" then
    ⟨upsertA channels (pyStrip arg1) (pyStrip arg2), subs,
     [⟨chat_id, "Added RSS: " ++ pyStrip arg1 ++ " -> " ++ pyStrip arg2⟩],
     true, false⟩
  else if cmd = "/addurl" ∧ arg1 ≠ "" ∧ arg2 ≠ "" then
    match (extract_channel_id_from_url fetch (pyStrip arg2)).1 with
    | none =>
      ⟨channels, subs,
       [⟨chat_id, "Failed to extract channel id from the URL. Try /add <name> <channel_id> or paste the standard channel link."⟩],
       false, true⟩
    | some cid =>
      ⟨upsertA channels (pyStrip arg1) (feedUrlOf cid), subs,
       [⟨chat_id, "Added channel: " ++ pyStrip arg1 ++ "\n" ++ feedUrlOf cid⟩],
       true, true⟩
  else if (cmd = "/remove" ∨ cmd = "/rm") ∧ arg1 ≠ "" then
    if (lookupA channels (pyStrip arg1)).isSome then
      ⟨removeA channels (pyStrip arg1), subs,
       [⟨chat_id, "Removed channel: " ++ pyStrip arg1⟩], true, false⟩
    else
      ⟨channels, subs,
       [⟨chat_id, "Channel \x27" ++ pyStrip arg1 ++ "\x27 not found."⟩], false, false⟩
  else if cmd = "/list" then
    if channels = [] then
      ⟨channels, subs, [⟨chat_id, "No channels tracked yet."⟩], false, false⟩
    else
      ⟨channels, subs,
       [⟨chat_id, "Tracked channels:\n" ++
          String.intercalate "\n" (channels.map (fun kv => kv.1 ++ ": " ++ kv.2))⟩],
       false, false⟩
  else
    if 2 ≤ parts.length ∧ pyStartsWith (parts.headD "") "http" then
      ⟨channels, subs,
       [⟨chat_id, "Use /addurl <name> <youtube_url> to add by link."⟩],
       false, false⟩
    else ⟨channels, subs, [], false, false⟩

/-- One message of the update loop (main.py lines 144-150): strip the text,
skip empty messages, tokenise with `split(maxsplit=2)`, and dispatch.  The
Python locals `cmd`, `arg1`, `arg2` are computed here and passed to
`processCmd`. -/
def processMessage (fetch : String → Option String) (channels : Registry)
    (subs : List Int) (chat_id : Int) (text0 : String) : MsgResult :=
  if pyStrip text0 = "" then ⟨channels, subs, [], false, false⟩
  else
    processCmd fetch channels subs chat_id (pySplitMax2 (pyStrip text0))
      (pyLower ((pySplitMax2 (pyStrip text0)).headD ""))
      (((pySplitMax2 (pyStrip text0)).drop 1).headD "")
      (((pySplitMax2 (pyStrip text0)).drop 2).headD "")

/-- One update of the loop body: `msg = u.get("message") or
u.get("edited_message")` (a message dict is never empty, so `or` is
`Option.orElse`); skip updates without a message. -/
def processUpdate (fetch : String → Option String) (channels : Registry)
    (subs : List Int) (u : TgUpdate) : MsgResult :=
  match (match u.message with
         | some m => some m
         | none => u.edited_message) with
  | none => ⟨channels, subs, [], false, false⟩
  | some msg => processMessage fetch channels subs msg.chat_id msg.text

/-- Loop accumulator of `handle_updates_and_commands`. -/
structure HandleAcc where
  last_id : Nat
  channels : Registry
  subs : List Int
  replies : List Reply
  changed : Bool
  resolverCalled : Bool
deriving DecidableEq

/-- One iteration of the update loop (main.py lines 137-228):
`last_id = max(last_id, u["update_id"])`, then the command dispatch. -/
def handleStep (fetch : String → Option String) (acc : HandleAcc)
    (u : TgUpdate) : HandleAcc :=
  ⟨max acc.last_id u.update_id,
   (processUpdate fetch acc.channels acc.subs u).channels,
   (processUpdate fetch acc.channels acc.subs u).subs,
   acc.replies ++ (processUpdate fetch acc.channels acc.subs u).replies,
   acc.changed || (processUpdate fetch acc.channels acc.subs u).changed,
   acc.resolverCalled || (processUpdate fetch acc.channels acc.subs u).resolverCalled⟩

/-- Result of `handle_updates_and_commands` (with the emitted replies and
the resolver instrumentation added). -/
structure HandleResult where
  channels : Registry
  tg : TgState
  changed : Bool
  replies : List Reply
  resolverCalled : Bool
deriving DecidableEq

/-- The epilogue of `handle_updates_and_commands` (main.py lines 231-235):
after the loop, when `last_id` differs from the stored
`tg_state.get("last_update_id")` (which is `None` when the key is absent),
the stored value is set to `last_id` and `changed` is set. -/
def handleFinish (tg : TgState) (acc : HandleAcc) : HandleResult :=
  if tg.last_update_id = some acc.last_id then
    ⟨acc.channels, ⟨tg.last_update_id, acc.subs⟩, acc.changed,
     acc.replies, acc.resolverCalled⟩
  else
    ⟨acc.channels, ⟨some acc.last_id, acc.subs⟩, true,
     acc.replies, acc.resolverCalled⟩

/-- `handle_updates_and_commands(channels, tg_state)` (main.py lines 132-235).
The pending updates (the batch returned by `fetch_updates(last_id + 1)`) are
a parameter.  The loop folds `handleStep` over them starting from the stored
cursor (`tg_state.get("last_update_id", 0)`), then `handleFinish` applies the
epilogue. -/
def handle_updates_and_commands (fetch : String → Option String)
    (updates : List TgUpdate) (channels : Registry) (tg : TgState) :
    HandleResult :=
  handleFinish tg (updates.foldl (handleStep fetch)
    ⟨tg.last_update_id.getD 0, channels, tg.subscribers, [], false, false⟩)

/-- One row of the report's "new videos" list (`collect_new_videos` item). -/
structure VideoItem where
  channel : String
  title : String
  link : String
  published : String
deriving DecidableEq

/-- A portfolio entry of `portfolio.json` (`{ticker: {name, qty, avg}}`);
fields are read with `.get` defaults, so each may be absent. -/
structure PortEntry where
  name : Option String
  qty : Option ℚ
  avg : Option ℚ
deriving DecidableEq

/-- A snapshot row produced by `portfolio_snapshot`. -/
structure PosInfo where
  name : String
  qty : ℚ
  avg : ℚ
  last : Option ℚ
  series : List ℚ
deriving DecidableEq

/-- A metals row produced by `fetch_metals`. -/
structure MetalInfo where
  ticker : String
  series : List ℚ
  last : Option ℚ
deriving DecidableEq

/-- `collect_new_videos(channels, yt_state)` (report_generator.py lines
36-54): like the feed checker but read-only — it never writes `yt_state`. -/
def collect_new_videos (feeds : String → Option Feed) (channels : Registry)
    (yt : YtState) : List VideoItem :=
  channels.foldl
    (fun acc nr =>
      match feeds nr.2 with
      | none => acc
      | some feed =>
        match feed.entries with
        | [] => acc
        | latest :: _ =>
          if ytGet yt nr.2 = deriveVid latest then acc
          else acc ++ [⟨nr.1, latest.title.getD "", latest.link.getD "",
                        latest.published.getD ""⟩])
    []

/-- `fetch_price_series(ticker, period, interval)` (report_generator.py lines
73-81).  The oracle `hist` models `yf.Ticker(t).history(...)['Close']`;
`none` is an exception, `some []` an empty history — both yield `[]`. -/
def fetch_price_series (hist : String → String → String → Option (List ℚ))
    (ticker period interval : String) : List ℚ :=
  match hist ticker period interval with
  | none => []
  | some vals => vals

/-- `fetch_metals()` (report_generator.py lines 84-91): Gold and Silver
futures, in dict insertion order; `last = vals[-1] if vals else None`. -/
def fetch_metals (hist : String → String → String → Option (List ℚ)) :
    List (String × MetalInfo) :=
  [("Gold",
    let vals := fetch_price_series hist "GC=F" "2d" "1h"
    ⟨"GC=F", vals, vals.getLast?⟩),
   ("Silver",
    let vals := fetch_price_series hist "SI=F" "2d" "1h"
    ⟨"SI=F", vals, vals.getLast?⟩)]

/-- `portfolio_snapshot(portfolio)` (report_generator.py lines 94-104). -/
def portfolio_snapshot (hist : String → String → String → Option (List ℚ))
    (portfolio : List (String × PortEntry)) : List (String × PosInfo) :=
  portfolio.map fun tkinfo =>
    let series := fetch_price_series hist tkinfo.1 "7d" "1h"
    (tkinfo.1,
     ⟨tkinfo.2.name.getD tkinfo.1, tkinfo.2.qty.getD 0, tkinfo.2.avg.getD 0,
      series.getLast?, series⟩)

/-- One `<tr>` of the portfolio table (report_generator.py lines 131-144).
`fmtFix2` models Python `f"{x:.2f}"`, `fmtNum` models `str(x)` interpolation,
`spark` models `sparkline_base64` (the data URI).  With a fetched last price
the P/L cell is `(last - avg) * qty` formatted; otherwise the last-price cell
is `N/A` and the P/L cell is empty. -/
def portfolio_row (fmtFix2 fmtNum : ℚ → String) (spark : List ℚ → String)
    (tk : String) (info : PosInfo) : String :=
  let last_str := match info.last with
    | none => "N/A"
    | some l => fmtFix2 l
  let pl := match info.last with
    | none => ""
    | some l => fmtFix2 ((l - info.avg) * info.qty)
  let trend_img :=
    if info.series = [] then ""
    else "<img src=\x27" ++ spark info.series ++ "\x27 alt=\x27trend\x27/>"
  "<tr><td>" ++ tk ++ "</td><td>" ++ info.name ++ "</td><td>" ++
    fmtNum info.qty ++ "</td><td>" ++ fmtNum info.avg ++ "</td><td>" ++
    last_str ++ "</td><td>" ++ pl ++ "</td><td>" ++ trend_img ++ "</td></tr>"

/-- One metals `<h4>` line (report_generator.py lines 152-156). -/
def metal_row (fmtNum : ℚ → String) (spark : List ℚ → String)
    (mname : String) (m : MetalInfo) : String :=
  let img := if m.series = [] then ""
             else "<img src=\x27" ++ spark m.series ++ "\x27/>"
  "<h4>" ++ mname ++ " (" ++ m.ticker ++ ") — Last: " ++
    (match m.last with
     | some l => fmtNum l
     | none => "N/A") ++ "</h4>" ++ img

/-- One `<tr>` of the new-videos table (report_generator.py line 120). -/
def video_row (v : VideoItem) : String :=
  "<tr><td>" ++ v.channel ++ "</td><td><a href=\x27" ++ v.link ++
    "\x27 target=\x27_blank\x27>" ++ v.title ++ "</a></td><td>" ++
    v.published ++ "</td></tr>"

/-- The `html` list built by `build_html` (report_generator.py lines
107-160), element for element in append order. -/
def build_html_list (fmtFix2 fmtNum : ℚ → String) (spark : List ℚ → String)
    (date_str : String) (new_videos : List VideoItem)
    (portfolio_snap : List (String × PosInfo))
    (metals : List (String × MetalInfo)) : List String :=
  ["<!doctype html><html><head><meta charset=\x27utf-8\x27><title>Daily Report</title>",
   "<style>body\x7bfont-family:Arial;padding:10px\x7d .tabs\x7bdisplay:flex;gap:8px;margin-bottom:10px\x7d.tab\x7bpadding:8px 12px;background:#eee;border-radius:6px;cursor:pointer\x7d.tab.active\x7bbackground:#2b8aef;color:#fff\x7d.panel\x7bdisplay:none\x7d.panel.active\x7bdisplay:block\x7d table\x7bwidth:100%;border-collapse:collapse\x7d th,td\x7bborder:1px solid #ddd;padding:8px;text-align:left\x7d</style>",
   "</head><body>",
   "<h2>Daily Report — " ++ date_str ++ "</h2>",
   "<div class=\x27tabs\x27><div class=\x27tab active\x27 data-tab=\x27yt\x27>YouTube</div><div class=\x27tab\x27 data-tab=\x27inv\x27>Investments</div><div class=\x27tab\x27 data-tab=\x27met\x27>Metals</div></div>",
   "<div id=\x27yt\x27 class=\x27panel active\x27>"]
  ++ (if new_videos = [] then ["<p>No new videos since last run.</p>"]
      else ["<h3>New Videos</h3><table><tr><th>Channel</th><th>Title</th><th>Published</th></tr>"]
           ++ new_videos.map video_row
           ++ ["</table>"])
  ++ ["</div>",
      "<div id=\x27inv\x27 class=\x27panel\x27>",
      "<h3>Portfolio</h3>"]
  ++ (if portfolio_snap = [] then ["<p>No stocks in portfolio.</p>"]
      else ["<table><tr><th>Ticker</th><th>Name</th><th>Qty</th><th>Avg</th><th>Last</th><th>P/L</th><th>Trend</th></tr>"]
           ++ portfolio_snap.map (fun p => portfolio_row fmtFix2 fmtNum spark p.1 p.2)
           ++ ["</table>"])
  ++ ["</div>",
      "<div id=\x27met\x27 class=\x27panel\x27>"]
  ++ metals.map (fun p => metal_row fmtNum spark p.1 p.2)
  ++ ["</div>",
      "<script>document.querySelectorAll(\x27.tab\x27).forEach(t=>t.addEventListener(\x27click\x27,function()\x7bdocument.querySelectorAll(\x27.tab\x27).forEach(x=>x.classList.remove(\x27active\x27)); document.querySelectorAll(\x27.panel\x27).forEach(p=>p.classList.remove(\x27active\x27)); this.classList.add(\x27active\x27); document.getElementById(this.getAttribute(\x27data-tab\x27)).classList.add(\x27active\x27);\x7d));</script>",
      "</body></html>"]

/-- `build_html(...)` returns `"\n".join(html)` (report_generator.py line 161). -/
def build_html (fmtFix2 fmtNum : ℚ → String) (spark : List ℚ → String)
    (date_str : String) (new_videos : List VideoItem)
    (portfolio_snap : List (String × PosInfo))
    (metals : List (String × MetalInfo)) : String :=
  String.intercalate "\n"
    (build_html_list fmtFix2 fmtNum spark date_str new_videos portfolio_snap metals)

/-- A string with no whitespace characters at all (a single command token). -/
def noWsB (s : String) : Bool :=
  s.toList.all (fun c => !isSpaceChar c)

lemma stripLeft_eq_self (l : List Char)
    (h : ∀ c, l.head? = some c → isSpaceChar c = false) : stripLeft l = l := by
  cases l with
  | nil => rfl
  | cons c cs => simp [stripLeft, h c rfl]

lemma head?_no_ws (l : List Char) (h : l.all (fun c => !isSpaceChar c) = true) :
    ∀ c, l.head? = some c → isSpaceChar c = false := by
  intro c hc
  cases l with
  | nil => simp at hc
  | cons a t =>
    simp only [List.head?_cons, Option.some.injEq] at hc
    subst hc
    simp only [List.all_cons, Bool.and_eq_true, Bool.not_eq_true'] at h
    exact h.1

lemma pyStripL_eq_self (l : List Char)
    (h1 : ∀ c, l.head? = some c → isSpaceChar c = false)
    (h2 : ∀ c, l.getLast? = some c → isSpaceChar c = false) :
    pyStripL l = l := by
  unfold pyStripL
  rw [stripLeft_eq_self l.reverse
        (by intro c hc; rw [List.head?_reverse] at hc; exact h2 c hc),
      List.reverse_reverse, stripLeft_eq_self l h1]

lemma pyStrip_self_of_noWs (s : String) (h : noWsB s = true) : pyStrip s = s := by
  have h' : s.toList.all (fun c => !isSpaceChar c) = true := h
  have hrev : s.toList.reverse.all (fun c => !isSpaceChar c) = true := by
    rw [List.all_reverse]; exact h'
  unfold pyStrip
  rw [pyStripL_eq_self s.toList (head?_no_ws _ h')
        (by
          intro c hc
          rw [← List.head?_reverse] at hc
          exact head?_no_ws s.toList.reverse hrev c hc)]
  rfl

lemma str_append_ne_empty (s t : String) (hs : s ≠ "") : s ++ t ≠ "" := by
  intro h
  apply hs
  have hd := congrArg String.data h
  rw [String.data_append] at hd
  simp only [List.append_eq_nil] at hd
  · cases s with
    | mk l => cases hd.1; rfl

lemma tw_append_stop (p : Char → Bool) (xs : List Char) (y : Char) (ys : List Char)
    (hx : ∀ x ∈ xs, p x = true) (hy : p y = false) :
    (xs ++ y :: ys).takeWhile p = xs := by
  induction xs with
  | nil => simp [List.takeWhile_cons, hy]
  | cons a t ih =>
    have ha : p a = true := hx a (by simp)
    simp only [List.cons_append, List.takeWhile_cons, ha, if_true]
    rw [ih (fun x hm => hx x (by simp [hm]))]

lemma dw_append_stop (p : Char → Bool) (xs : List Char) (y : Char) (ys : List Char)
    (hx : ∀ x ∈ xs, p x = true) (hy : p y = false) :
    (xs ++ y :: ys).dropWhile p = y :: ys := by
  induction xs with
  | nil => simp [List.dropWhile_cons, hy]
  | cons a t ih =>
    have ha : p a = true := hx a (by simp)
    simp only [List.cons_append, List.dropWhile_cons, ha, if_true]
    exact ih (fun x hm => hx x (by simp [hm]))

lemma all_bnot_ws (l : List Char) (h : l.all (fun c => !isSpaceChar c) = true) :
    ∀ x ∈ l, (fun c => !isSpaceChar c) x = true := by
  intro x hx
  exact List.all_eq_true.mp h x hx

lemma lookupA_upsert {β : Type} (m : List (String × β)) (k : String) (v : β) :
    lookupA (upsertA m k v) k = some v := by
  induction m with
  | nil => simp [upsertA, lookupA]
  | cons p rest ih =>
    by_cases hk : p.1 = k
    · simp [upsertA, lookupA, hk]
    · simp [upsertA, lookupA, hk, ih]

lemma toList_ne_nil_of_ne_empty (s : String) (h : s ≠ "") : s.toList ≠ [] := by
  intro hl
  apply h
  cases s with
  | mk l => cases hl; rfl

lemma data_two (c a : String) :
    (c ++ " " ++ a).toList = c.toList ++ ' ' :: a.toList := by
  cases c with
  | mk cl =>
    cases a with
    | mk al =>
      show (cl ++ [' ']) ++ al = cl ++ ' ' :: al
      rw [List.append_assoc]
      rfl

lemma data_three (c a b : String) :
    (c ++ " " ++ a ++ " " ++ b).toList =
      c.toList ++ ' ' :: (a.toList ++ ' ' :: b.toList) := by
  cases c with
  | mk cl =>
    cases a with
    | mk al =>
      cases b with
      | mk bl =>
        show (((cl ++ [' ']) ++ al) ++ [' ']) ++ bl = cl ++ ' ' :: (al ++ ' ' :: bl)
        simp [List.append_assoc]

lemma getLast?_no_ws (l : List Char) (h : l.all (fun c => !isSpaceChar c) = true) :
    ∀ c, l.getLast? = some c → isSpaceChar c = false := by
  intro c hc
  rw [← List.head?_reverse] at hc
  exact head?_no_ws l.reverse (by rw [List.all_reverse]; exact h) c hc

lemma pyStrip_two (c a : String) (hc : noWsB c = true) (ha : noWsB a = true)
    (hc0 : c ≠ "") (ha0 : a ≠ "") :
    pyStrip (c ++ " " ++ a) = c ++ " " ++ a := by
  have hal : a.toList ≠ [] := toList_ne_nil_of_ne_empty a ha0
  have hcl : c.toList ≠ [] := toList_ne_nil_of_ne_empty c hc0
  unfold pyStrip
  rw [data_two]
  rw [pyStripL_eq_self _
    (by
      intro x hx
      rw [List.head?_append_of_ne_nil _ hcl] at hx
      exact head?_no_ws c.toList hc x hx)
    (by
      intro x hx
      rw [List.getLast?_append_of_ne_nil _ (by simp : (' ' :: a.toList) ≠ [])] at hx
      rw [show ' ' :: a.toList = [' '] ++ a.toList from rfl,
          List.getLast?_append_of_ne_nil _ hal] at hx
      exact getLast?_no_ws a.toList ha x hx)]
  rw [← data_two]
  rfl

lemma pyStrip_three (c a b : String) (hc : noWsB c = true) (hb : noWsB b = true)
    (hc0 : c ≠ "") (hb0 : b ≠ "") :
    pyStrip (c ++ " " ++ a ++ " " ++ b) = c ++ " " ++ a ++ " " ++ b := by
  have hbl : b.toList ≠ [] := toList_ne_nil_of_ne_empty b hb0
  have hcl : c.toList ≠ [] := toList_ne_nil_of_ne_empty c hc0
  unfold pyStrip
  rw [data_three]
  rw [pyStripL_eq_self _
    (by
      intro x hx
      rw [List.head?_append_of_ne_nil _ hcl] at hx
      exact head?_no_ws c.toList hc x hx)
    (by
      intro x hx
      rw [List.getLast?_append_of_ne_nil _ (by simp : (' ' :: (a.toList ++ ' ' :: b.toList)) ≠ [])] at hx
      rw [show ' ' :: (a.toList ++ ' ' :: b.toList) = ([' '] ++ a.toList) ++ ' ' :: b.toList by simp,
          List.getLast?_append_of_ne_nil _ (by simp : (' ' :: b.toList) ≠ []),
          show ' ' :: b.toList = [' '] ++ b.toList from rfl,
          List.getLast?_append_of_ne_nil _ hbl] at hx
      exact getLast?_no_ws b.toList hb x hx)]
  rw [← data_three]
  rfl

lemma pySplitMax2_two (c a : String) (hc : noWsB c = true) (ha : noWsB a = true)
    (hc0 : c ≠ "") (ha0 : a ≠ "") :
    pySplitMax2 (c ++ " " ++ a) = [c, a] := by
  have hcnw : ∀ x ∈ c.toList, (fun ch => !isSpaceChar ch) x = true := all_bnot_ws _ hc
  have hanw : ∀ x ∈ a.toList, (fun ch => !isSpaceChar ch) x = true := all_bnot_ws _ ha
  have hal : a.toList ≠ [] := toList_ne_nil_of_ne_empty a ha0
  obtain ⟨c0, ct, hce⟩ := List.exists_cons_of_ne_nil (toList_ne_nil_of_ne_empty c hc0)
  obtain ⟨a0, at', hae⟩ := List.exists_cons_of_ne_nil hal
  have hc0ws : isSpaceChar c0 = false := by
    have := hcnw c0 (by rw [hce]; simp)
    simpa using this
  have ha0ws : isSpaceChar a0 = false := by
    have := hanw a0 (by rw [hae]; simp)
    simpa using this
  unfold pySplitMax2
  rw [data_two]
  have hdw : (c.toList ++ ' ' :: a.toList).dropWhile isSpaceChar =
      c.toList ++ ' ' :: a.toList := by
    rw [hce]
    simp [List.dropWhile_cons, hc0ws]
  rw [hdw]
  have hne : c.toList ++ ' ' :: a.toList ≠ [] := by
    rw [hce]; simp
  rw [if_neg hne]
  rw [tw_append_stop _ _ _ _ hcnw (by decide), dw_append_stop _ _ _ _ hcnw (by decide)]
  have hdw2 : (' ' :: a.toList).dropWhile isSpaceChar = a.toList := by
    rw [List.dropWhile_cons]
    simp only [show isSpaceChar ' ' = true from rfl, if_true]
    rw [hae]
    simp [List.dropWhile_cons, ha0ws]
  rw [hdw2, if_neg hal]
  rw [List.takeWhile_eq_self_iff.mpr hanw, List.dropWhile_eq_nil_iff.mpr hanw]
  cases c with
  | mk cl =>
    cases a with
    | mk al => rfl

lemma pySplitMax2_three (c a b : String) (hc : noWsB c = true) (ha : noWsB a = true)
    (hb : noWsB b = true) (hc0 : c ≠ "") (ha0 : a ≠ "") (hb0 : b ≠ "") :
    pySplitMax2 (c ++ " " ++ a ++ " " ++ b) = [c, a, b] := by
  have hcnw : ∀ x ∈ c.toList, (fun ch => !isSpaceChar ch) x = true := all_bnot_ws _ hc
  have hanw : ∀ x ∈ a.toList, (fun ch => !isSpaceChar ch) x = true := all_bnot_ws _ ha
  have hbnw : ∀ x ∈ b.toList, (fun ch => !isSpaceChar ch) x = true := all_bnot_ws _ hb
  have hbl : b.toList ≠ [] := toList_ne_nil_of_ne_empty b hb0
  obtain ⟨c0, ct, hce⟩ := List.exists_cons_of_ne_nil (toList_ne_nil_of_ne_empty c hc0)
  obtain ⟨a0, at', hae⟩ := List.exists_cons_of_ne_nil (toList_ne_nil_of_ne_empty a ha0)
  obtain ⟨b0, bt, hbe⟩ := List.exists_cons_of_ne_nil hbl
  have hc0ws : isSpaceChar c0 = false := by
    have := hcnw c0 (by rw [hce]; simp)
    simpa using this
  have ha0ws : isSpaceChar a0 = false := by
    have := hanw a0 (by rw [hae]; simp)
    simpa using this
  have hb0ws : isSpaceChar b0 = false := by
    have := hbnw b0 (by rw [hbe]; simp)
    simpa using this
  unfold pySplitMax2
  rw [data_three]
  have hdw : (c.toList ++ ' ' :: (a.toList ++ ' ' :: b.toList)).dropWhile isSpaceChar =
      c.toList ++ ' ' :: (a.toList ++ ' ' :: b.toList) := by
    rw [hce]
    simp [List.dropWhile_cons, hc0ws]
  rw [hdw]
  have hne : c.toList ++ ' ' :: (a.toList ++ ' ' :: b.toList) ≠ [] := by
    rw [hce]; simp
  rw [if_neg hne]
  rw [tw_append_stop _ _ _ _ hcnw (by decide), dw_append_stop _ _ _ _ hcnw (by decide)]
  have hdw2 : (' ' :: (a.toList ++ ' ' :: b.toList)).dropWhile isSpaceChar =
      a.toList ++ ' ' :: b.toList := by
    rw [List.dropWhile_cons]
    simp only [show isSpaceChar ' ' = true from rfl, if_true]
    rw [hae]
    simp [List.dropWhile_cons, ha0ws]
  rw [hdw2]
  rw [if_neg (by rw [hae]; simp)]
  rw [tw_append_stop _ _ _ _ hanw (by decide), dw_append_stop _ _ _ _ hanw (by decide)]
  have hdw3 : (' ' :: b.toList).dropWhile isSpaceChar = b.toList := by
    rw [List.dropWhile_cons]
    simp only [show isSpaceChar ' ' = true from rfl, if_true]
    rw [hbe]
    simp [List.dropWhile_cons, hb0ws]
  rw [hdw3, if_neg hbl]
  cases c with
  | mk cl =>
    cases a with
    | mk al =>
      cases b with
      | mk bl => rfl

lemma processMessage_remove (fetch : String → Option String) (channels : Registry)
    (subs : List Int) (chat : Int) (name : String)
    (hn : noWsB name = true) (hn0 : name ≠ "") :
    processMessage fetch channels subs chat ("/remove " ++ name) =
      (if (lookupA channels name).isSome then
        ⟨removeA channels name, subs, [⟨chat, "Removed channel: " ++ name⟩], true, false⟩
      else
        ⟨channels, subs, [⟨chat, "Channel \x27" ++ name ++ "\x27 not found."⟩],
         false, false⟩) := by
  rw [show ("/remove " ++ name : String) = "/remove" ++ " " ++ name from rfl]
  unfold processMessage
  rw [pyStrip_two "/remove" name (by decide) hn (by decide) hn0,
      pySplitMax2_two "/remove" name (by decide) hn (by decide) hn0]
  rw [if_neg (str_append_ne_empty _ _ (str_append_ne_empty _ _
        (by decide : ("/remove" : String) ≠ "")))]
  simp only [List.headD_cons, List.drop_succ_cons, List.drop_zero, List.drop_nil,
             List.headD_nil]
  rw [show pyLower "/remove" = "/remove" from rfl]
  unfold processCmd
  rw [if_neg (by decide : ¬(("/remove" : String) = "/start" ∨ ("/remove" : String) = "start"))]
  rw [if_neg (by decide : ¬(("/remove" : String) = "/help" ∨ ("/remove" : String) = "help"))]
  rw [if_neg (fun h => absurd h.1 (by decide : ¬("/remove" : String) = "/add"))]
  rw [if_neg (fun h => absurd h.1 (by decide : ¬("/remove" : String) = "/addrss"))]
  rw [if_neg (fun h => absurd h.1 (by decide : ¬("/remove" : String) = "/addurl"))]
  rw [if_pos ⟨Or.inl rfl, hn0⟩]
  rw [pyStrip_self_of_noWs name hn]

lemma processMessage_add (fetch : String → Option String) (channels : Registry)
    (subs : List Int) (chat : Int) (name cid : String)
    (hn : noWsB name = true) (hi : noWsB cid = true)
    (hn0 : name ≠ "") (hi0 : cid ≠ "") :
    processMessage fetch channels subs chat ("/add " ++ name ++ " " ++ cid) =
      (let cidF := if pyStartsWith cid "UC" then cid
                   else ((extract_channel_id_from_url fetch cid).1.getD cid)
       ⟨upsertA channels name (feedUrlOf cidF), subs,
        [⟨chat, "Added channel: " ++ name ++ "\n" ++ feedUrlOf cidF⟩],
        true, !pyStartsWith cid "UC"⟩) := by
  rw [show ("/add " ++ name ++ " " ++ cid : String) =
        "/add" ++ " " ++ name ++ " " ++ cid from rfl]
  unfold processMessage
  rw [pyStrip_three "/add" name cid (by decide) hi (by decide) hi0,
      pySplitMax2_three "/add" name cid (by decide) hn hi (by decide) hn0 hi0]
  rw [if_neg (str_append_ne_empty _ _ (str_append_ne_empty _ _
        (str_append_ne_empty _ _ (str_append_ne_empty _ _
          (by decide : ("/add" : String) ≠ "")))))]
  simp only [List.headD_cons, List.drop_succ_cons, List.drop_zero, List.drop_nil,
             List.headD_nil]
  rw [show pyLower "/add" = "/add" from rfl]
  unfold processCmd
  rw [if_neg (by decide : ¬(("/add" : String) = "/start" ∨ ("/add" : String) = "start"))]
  rw [if_neg (by decide : ¬(("/add" : String) = "/help" ∨ ("/add" : String) = "help"))]
  rw [if_pos ⟨rfl, hn0, hi0⟩]
  rw [pyStrip_self_of_noWs name hn, pyStrip_self_of_noWs cid hi]

lemma foldl_last_id (fetch : String → Option String) (us : List TgUpdate) (acc : HandleAcc) :
    (us.foldl (handleStep fetch) acc).last_id =
      us.foldl (fun a u => max a u.update_id) acc.last_id := by
  induction us generalizing acc with
  | nil => rfl
  | cons u t ih =>
    rw [List.foldl_cons, List.foldl_cons, ih]
    rfl

lemma foldl_max_shift (us : List TgUpdate) : ∀ a b : Nat,
    us.foldl (fun x u => max x u.update_id) (max a b) =
      max a (us.foldl (fun x u => max x u.update_id) b) := by
  induction us with
  | nil => intro a b; rfl
  | cons u t ih =>
    intro a b
    rw [List.foldl_cons, List.foldl_cons]
    rw [show max (max a b) u.update_id = max a (max b u.update_id) from Nat.max_assoc a b u.update_id]
    exact ih a (max b u.update_id)

lemma foldl_max_le (us : List TgUpdate) : ∀ a : Nat,
    a ≤ us.foldl (fun x u => max x u.update_id) a := by
  induction us with
  | nil => intro a; exact Nat.le_refl a
  | cons u t ih =>
    intro a
    exact Nat.le_trans (Nat.le_max_left a u.update_id) (ih (max a u.update_id))

lemma foldl_max_mem (us : List TgUpdate) : ∀ a : Nat,
    us.foldl (fun x u => max x u.update_id) a = a ∨
      ∃ u ∈ us, us.foldl (fun x u => max x u.update_id) a = u.update_id := by
  induction us with
  | nil => intro a; exact Or.inl rfl
  | cons v t ih =>
    intro a
    rw [List.foldl_cons]
    rcases ih (max a v.update_id) with h | ⟨u, hu, he⟩
    · rw [h]
      rcases max_choice a v.update_id with h2 | h2
      · exact Or.inl h2
      · exact Or.inr ⟨v, by simp, h2⟩
    · exact Or.inr ⟨u, by simp [hu], he⟩

lemma foldl_max_ub (us : List TgUpdate) : ∀ a : Nat, ∀ u ∈ us,
    u.update_id ≤ us.foldl (fun x u => max x u.update_id) a := by
  induction us with
  | nil => intro a u hu; cases hu
  | cons v t ih =>
    intro a u hu
    rw [List.foldl_cons]
    rcases List.mem_cons.mp hu with h | h
    · subst h
      exact Nat.le_trans (Nat.le_max_right a u.update_id) (foldl_max_le t _)
    · exact ih (max a v.update_id) u h

/-- The maximum update identifier of a batch (0 for an empty batch). -/
def maxUpdateId (updates : List TgUpdate) : Nat :=
  updates.foldl (fun a u => max a u.update_id) 0

/-- **C4.** For every batch of pending updates processed, the stored
last-processed sequence number afterwards equals the maximum update
identifier seen in that batch (which is witnessed in the batch and bounds
every identifier in it), and it never decreases across processing.  The
hypothesis that every identifier in the batch is at least the stored
sequence number reflects the fetch contract: `fetch_updates(last_id + 1)`
(main.py line 134) only returns updates with identifiers past the stored
cursor. -/
theorem handle_seq_spec (fetch : String → Option String)
    (updates : List TgUpdate) (channels : Registry) (tg : TgState)
    (h1 : updates ≠ [])
    (h2 : ∀ u ∈ updates, tg.last_update_id.getD 0 ≤ u.update_id) :
    (handle_updates_and_commands fetch updates channels tg).tg.last_update_id
        = some (maxUpdateId updates) ∧
    tg.last_update_id.getD 0 ≤ maxUpdateId updates ∧
    (∃ u ∈ updates, u.update_id = maxUpdateId updates) ∧
    (∀ u ∈ updates, u.update_id ≤ maxUpdateId updates) := by
  obtain ⟨u0, hu0⟩ := List.exists_mem_of_ne_nil updates h1
  have hub : ∀ u ∈ updates, u.update_id ≤ maxUpdateId updates :=
    fun u hu => foldl_max_ub updates 0 u hu
  have hmem : ∃ u ∈ updates, u.update_id = maxUpdateId updates := by
    rcases foldl_max_mem updates 0 with h | ⟨u, hu, he⟩
    · refine ⟨u0, hu0, ?_⟩
      have hb := hub u0 hu0
      unfold maxUpdateId at *
      omega
    · exact ⟨u, hu, he.symm⟩
  have hinit : tg.last_update_id.getD 0 ≤ maxUpdateId updates := by
    obtain ⟨u, hu, he⟩ := hmem
    exact he ▸ h2 u hu
  have hlast : (updates.foldl (handleStep fetch)
      ⟨tg.last_update_id.getD 0, channels, tg.subscribers, [], false, false⟩).last_id
      = maxUpdateId updates := by
    rw [foldl_last_id]
    have hs := foldl_max_shift updates (tg.last_update_id.getD 0) 0
    rw [Nat.max_zero] at hs
    rw [hs]
    exact Nat.max_eq_right hinit
  refine ⟨?_, hinit, hmem, hub⟩
  simp only [handle_updates_and_commands, handleFinish]
  rw [hlast]
  by_cases hc : tg.last_update_id = some (maxUpdateId updates)
  · rw [if_pos hc]
    exact hc
  · rw [if_neg hc]

/-- Witness for C4 on a concrete two-update batch with stored cursor 3. -/
theorem handle_seq_spec_witness :
    (handle_updates_and_commands (fun _ => none)
        [⟨5, none, none⟩, ⟨9, none, none⟩] [] ⟨some 3, []⟩).tg.last_update_id
      = some (maxUpdateId [⟨5, none, none⟩, ⟨9, none, none⟩]) ∧
    (⟨some 3, []⟩ : TgState).last_update_id.getD 0
      ≤ maxUpdateId [⟨5, none, none⟩, ⟨9, none, none⟩] ∧
    (∃ u ∈ [(⟨5, none, none⟩ : TgUpdate), ⟨9, none, none⟩],
        u.update_id = maxUpdateId [⟨5, none, none⟩, ⟨9, none, none⟩]) ∧
    (∀ u ∈ [(⟨5, none, none⟩ : TgUpdate), ⟨9, none, none⟩],
        u.update_id ≤ maxUpdateId [⟨5, none, none⟩, ⟨9, none, none⟩]) :=
  handle_seq_spec (fun _ => none) [⟨5, none, none⟩, ⟨9, none, none⟩] [] ⟨some 3, []⟩
    (by decide) (by decide)

lemma cid_not_ws (c : Char) (h : isCidChar c = true) : isSpaceChar c = false := by
  cases hh : isSpaceChar c
  · rfl
  · exfalso
    unfold isSpaceChar at hh
    simp only [Bool.or_eq_true, decide_eq_true_eq] at hh
    have hd : c = ' ' ∨ c = '\t' ∨ c = '\n' ∨ c = '\x0d' ∨ c = '\x0b' ∨ c = '\x0c' := by
      tauto
    rcases hd with h1 | h1 | h1 | h1 | h1 | h1 <;> subst h1 <;> revert h <;> decide

/-- **C5.** For every input string matching the canonical ID pattern
(`UC` followed by at least 20 URL-safe characters), the resolver returns
the input unchanged and performs no network call (the instrumentation flag
of `extract_channel_id_from_url` is `false`, so the `fetch` oracle is
never consulted). -/
theorem canonical_id_spec (fetch : String → Option String) (url : String)
    (h : isCanonicalId url = true) :
    extract_channel_id_from_url fetch url = (some url, false) := by
  have hne : url ≠ "" := by
    intro he
    rw [he] at h
    exact absurd h (by decide)
  have hl : ∃ rest, url.toList = 'U' :: 'C' :: rest ∧ rest.all isCidChar = true := by
    unfold isCanonicalId at h
    split at h
    · rename_i rest heq
      simp only [Bool.and_eq_true] at h
      exact ⟨rest, heq, h.2⟩
    · exact absurd h (by decide)
  have hnw : noWsB url = true := by
    obtain ⟨rest, heq, hall⟩ := hl
    unfold noWsB
    rw [heq]
    simp only [List.all_cons, Bool.and_eq_true]
    refine ⟨by decide, by decide, ?_⟩
    rw [List.all_eq_true] at hall ⊢
    intro x hx
    have := cid_not_ws x (hall x hx)
    simp [this]
  have hstrip : pyStrip url = url := pyStrip_self_of_noWs url hnw
  unfold extract_channel_id_from_url
  rw [if_neg hne, hstrip, if_pos h]

/-- Witness for C5 at a concrete canonical channel id. -/
theorem canonical_id_spec_witness :
    isCanonicalId "UCabcdefghijklmnopqrst" = true ∧
    extract_channel_id_from_url (fun _ => none) "UCabcdefghijklmnopqrst"
      = (some "UCabcdefghijklmnopqrst", false) :=
  ⟨by decide, canonical_id_spec (fun _ => none) "UCabcdefghijklmnopqrst" (by decide)⟩

/-- **C2.** For every input on which the resolver's non-network strategies
(canonical-ID match and `/channel/<ID>` path extraction) fail, the resolver
fetches the page body and searches it for, in this order: a `channelId`
JSON field, an anchor to `youtube.com/channel/<ID>`, an `og:url` meta tag
referencing `/channel/<ID>`, an `externalId` JSON field; it returns the
first match found, and returns `none` (modelling NotFound; the function is
total, so no error reaches the caller) when no strategy matches or the
network fetch fails. -/
theorem resolver_fallback_spec (fetch : String → Option String) (url : String)
    (h0 : url ≠ "") (h1 : isCanonicalId (pyStrip url) = false)
    (h2 : searchChannelPath (pyStrip url) = none) :
    ((extract_channel_id_from_url fetch url).1 =
       (match fetch (mkFetchUrl (pyStrip url)) with
        | none => none
        | some html => firstSome [searchChannelId html, searchHref html,
                                  searchOgUrl html, searchExternalId html])) ∧
    (extract_channel_id_from_url fetch url).2 = true ∧
    (fetch (mkFetchUrl (pyStrip url)) = none →
       (extract_channel_id_from_url fetch url).1 = none) ∧
    (∀ html, fetch (mkFetchUrl (pyStrip url)) = some html →
       searchChannelId html = none → searchHref html = none →
       searchOgUrl html = none → searchExternalId html = none →
       (extract_channel_id_from_url fetch url).1 = none) ∧
    (∀ html r, fetch (mkFetchUrl (pyStrip url)) = some html →
       searchChannelId html = some r →
       (extract_channel_id_from_url fetch url).1 = some r) := by
  have hbase : extract_channel_id_from_url fetch url =
      (match fetch (mkFetchUrl (pyStrip url)) with
       | none => (none, true)
       | some html => (firstSome [searchChannelId html, searchHref html,
                                  searchOgUrl html, searchExternalId html], true)) := by
    unfold extract_channel_id_from_url
    rw [if_neg h0, if_neg (by simp [h1]), h2]
  refine ⟨?_, ?_, ?_, ?_, ?_⟩
  · rw [hbase]
    cases fetch (mkFetchUrl (pyStrip url)) <;> rfl
  · rw [hbase]
    cases fetch (mkFetchUrl (pyStrip url)) <;> rfl
  · intro hf
    rw [hbase, hf]
  · intro html hf hA hB hC hD
    rw [hbase, hf]
    simp only [firstSome, hA, hB, hC, hD]
  · intro html r hf hA
    rw [hbase, hf]
    simp only [firstSome, hA]

/-- Witness for C2: a non-canonical input without a `/channel/` segment and
a failing fetch resolves to `none`. -/
theorem resolver_fallback_spec_witness :
    ("example.com/live" : String) ≠ "" ∧
    isCanonicalId (pyStrip "example.com/live") = false ∧
    searchChannelPath (pyStrip "example.com/live") = none ∧
    (extract_channel_id_from_url (fun _ => none) "example.com/live").1 = none :=
  ⟨by decide, by decide, by decide,
   (resolver_fallback_spec (fun _ => none) "example.com/live"
      (by decide) (by decide) (by decide)).2.2.1 rfl⟩

lemma ytGet_upsert (st : YtState) (k : String) (v : Option String) :
    ytGet (upsertA st k v) k = v := by
  unfold ytGet
  rw [lookupA_upsert]

/-- **C3.** For every registry entry whose feed yields at least one entry,
the feed checker derives the newest entry's video identifier preferring the
feed-specific video-ID field, then the item identifier, then the link
(first three conjuncts); when the stored identifier for that feed URL
equals the derived identifier, no notification is produced and the stored
state is unchanged for that feed; when it differs or nothing is stored
(`ytGet` is `none` on a first-ever check, so it differs from `some v`), the
stored identifier is updated and exactly one notification per current
subscriber is produced. -/
theorem feed_check_spec (feeds : String → Option Feed) (subs : List Int)
    (st : YtState) (name rss : String) (feed : Feed) (e : FeedEntry)
    (rest : List FeedEntry) (v : String)
    (hf : feeds rss = some feed) (he : feed.entries = e :: rest)
    (hv : deriveVid e = some v) :
    (∀ w, e.yt_videoid = some w → w ≠ "" → deriveVid e = some w) ∧
    ((e.yt_videoid = none ∨ e.yt_videoid = some "") →
       ∀ w, e.id = some w → w ≠ "" → deriveVid e = some w) ∧
    ((e.yt_videoid = none ∨ e.yt_videoid = some "") →
       (e.id = none ∨ e.id = some "") → deriveVid e = e.link) ∧
    (ytGet st rss = some v →
       checkChannel feeds subs st name rss = (st, [], false)) ∧
    (ytGet st rss ≠ some v →
       checkChannel feeds subs st name rss =
         (upsertA st rss (some v),
          subs.map (fun c =>
            ⟨c, notifyText name (e.title.getD "No title") (e.link.getD "")⟩),
          true) ∧
       (subs.map (fun c =>
          (⟨c, notifyText name (e.title.getD "No title") (e.link.getD "")⟩ : Reply))).length
         = subs.length) := by
  refine ⟨?_, ?_, ?_, ?_, ?_⟩
  · intro w hw hne
    simp [deriveVid, pyOrS, hw, hne]
  · intro hy w hw hne
    rcases hy with hy | hy <;> simp [deriveVid, pyOrS, hy, hw, hne]
  · intro hy hi
    rcases hy with hy | hy <;> rcases hi with hi | hi <;>
      simp [deriveVid, pyOrS, hy, hi]
  · intro hm
    simp only [checkChannel, hf, he, hv, hm]
    rfl
  · intro hm
    constructor
    · simp only [checkChannel, hf, he, hv]
      rw [if_neg hm]
    · exact List.length_map subs _

/-- Witness for C3: a mismatching stored identifier leads to one
notification per subscriber and an updated store. -/
theorem feed_check_spec_witness :
    checkChannel (fun _ => some ⟨[⟨some "v1", none, none, some "T", none⟩]⟩)
        [1, 2] [] "nm" "r" =
      ([("r", some "v1")],
       [⟨1, notifyText "nm" "T" ""⟩, ⟨2, notifyText "nm" "T" ""⟩], true) := by
  have h := (feed_check_spec (fun _ => some ⟨[⟨some "v1", none, none, some "T", none⟩]⟩)
      [1, 2] [] "nm" "r" ⟨[⟨some "v1", none, none, some "T", none⟩]⟩
      ⟨some "v1", none, none, some "T", none⟩ [] "v1" rfl rfl (by decide)).2.2.2.2
  exact (h (by decide)).1

/-- **C10.** When the subscriber set is empty, the feed checker on a new
newest-entry identifier still updates the stored identifier for that feed
and reports the state changed, while sending zero notifications; on every
later run over the updated state the same feed produces no further action,
regardless of the subscribers present by then. -/
theorem empty_subs_update_spec (feeds : String → Option Feed) (st : YtState)
    (name rss : String) (feed : Feed) (e : FeedEntry) (rest : List FeedEntry)
    (v : String)
    (hf : feeds rss = some feed) (he : feed.entries = e :: rest)
    (hv : deriveVid e = some v) (hmis : ytGet st rss ≠ some v) :
    checkChannel feeds [] st name rss = (upsertA st rss (some v), [], true) ∧
    (∀ (subs2 : List Int) (name2 : String),
        checkChannel feeds subs2 (upsertA st rss (some v)) name2 rss =
          (upsertA st rss (some v), [], false)) := by
  constructor
  · simp only [checkChannel, hf, he, hv]
    rw [if_neg hmis]
    rfl
  · intro subs2 name2
    simp only [checkChannel, hf, he, hv]
    rw [if_pos (ytGet_upsert st rss (some v))]

/-- Witness for C10: first check with no subscribers stores the identifier
and notifies nobody; a later check with subscribers stays silent. -/
theorem empty_subs_update_spec_witness :
    checkChannel (fun _ => some ⟨[⟨some "v1", none, none, some "T", none⟩]⟩)
        [] [] "nm" "r" = ([("r", some "v1")], [], true) ∧
    checkChannel (fun _ => some ⟨[⟨some "v1", none, none, some "T", none⟩]⟩)
        [5] [("r", some "v1")] "nm" "r" = ([("r", some "v1")], [], false) := by
  have h := empty_subs_update_spec
      (fun _ => some ⟨[⟨some "v1", none, none, some "T", none⟩]⟩) [] "nm" "r"
      ⟨[⟨some "v1", none, none, some "T", none⟩]⟩
      ⟨some "v1", none, none, some "T", none⟩ [] "v1" rfl rfl (by decide) (by decide)
  exact ⟨h.1, h.2 [5] "nm"⟩

lemma handle_single_proj (fetch : String → Option String) (u : TgUpdate)
    (channels : Registry) (tg : TgState) :
    (handle_updates_and_commands fetch [u] channels tg).channels
        = (processUpdate fetch channels tg.subscribers u).channels ∧
    (handle_updates_and_commands fetch [u] channels tg).replies
        = (processUpdate fetch channels tg.subscribers u).replies ∧
    (handle_updates_and_commands fetch [u] channels tg).resolverCalled
        = (processUpdate fetch channels tg.subscribers u).resolverCalled := by
  refine ⟨?_, ?_, ?_⟩ <;>
    · unfold handle_updates_and_commands handleFinish
      rw [List.foldl_cons, List.foldl_nil]
      split <;> rfl

/-- **C6.** For every `/remove name` command where the name is absent from
the registry, the registry is left unchanged and a not-found reply is
produced; where the name is present, the entry is deleted and a
confirmation reply is produced. -/
theorem remove_cmd_spec (fetch : String → Option String) (channels : Registry)
    (tg : TgState) (uid : Nat) (chat : Int) (name : String)
    (hn : noWsB name = true) (hn0 : name ≠ "") :
    (lookupA channels name = none →
       (handle_updates_and_commands fetch
          [⟨uid, some ⟨chat, "/remove " ++ name⟩, none⟩] channels tg).channels
           = channels ∧
       (handle_updates_and_commands fetch
          [⟨uid, some ⟨chat, "/remove " ++ name⟩, none⟩] channels tg).replies
           = [⟨chat, "Channel \x27" ++ name ++ "\x27 not found."⟩]) ∧
    (∀ v, lookupA channels name = some v →
       (handle_updates_and_commands fetch
          [⟨uid, some ⟨chat, "/remove " ++ name⟩, none⟩] channels tg).channels
           = removeA channels name ∧
       (handle_updates_and_commands fetch
          [⟨uid, some ⟨chat, "/remove " ++ name⟩, none⟩] channels tg).replies
           = [⟨chat, "Removed channel: " ++ name⟩]) := by
  obtain ⟨hch, hrep, -⟩ := handle_single_proj fetch
    ⟨uid, some ⟨chat, "/remove " ++ name⟩, none⟩ channels tg
  have hu : processUpdate fetch channels tg.subscribers
      ⟨uid, some ⟨chat, "/remove " ++ name⟩, none⟩
      = processMessage fetch channels tg.subscribers chat ("/remove " ++ name) := rfl
  have hpm := processMessage_remove fetch channels tg.subscribers chat name hn hn0
  constructor
  · intro h
    have hneg : ¬((lookupA channels name).isSome = true) := by simp [h]
    constructor
    · rw [hch, hu, hpm, if_neg hneg]
    · rw [hrep, hu, hpm, if_neg hneg]
  · intro v hv
    have hpos : (lookupA channels name).isSome = true := by simp [hv]
    constructor
    · rw [hch, hu, hpm, if_pos hpos]
    · rw [hrep, hu, hpm, if_pos hpos]

/-- Witness for C6 at a concrete absent name. -/
theorem remove_cmd_spec_witness :
    (handle_updates_and_commands (fun _ => none)
       [⟨1, some ⟨7, "/remove b"⟩, none⟩] [("a", "u")] ⟨some 0, []⟩).channels
      = [("a", "u")] ∧
    (handle_updates_and_commands (fun _ => none)
       [⟨1, some ⟨7, "/remove b"⟩, none⟩] [("a", "u")] ⟨some 0, []⟩).replies
      = [⟨7, "Channel \x27b\x27 not found."⟩] :=
  (remove_cmd_spec (fun _ => none) [("a", "u")] ⟨some 0, []⟩ 1 7 "b"
    (by decide) (by decide)).1 rfl

/-- **C1 (counterexample).** The claim says a `/add` whose second argument
is not a canonical channel ID always triggers resolution, and that an
unresolvable channel yields a failure notice.  The code tests only the
two-character prefix `UC` and never fails: `/add foo UCabc` (`UCabc` is
not canonical) performs no resolution, and `/add foo xhandle` with an
unresolvable `xhandle` still upserts the literal argument and replies with
a confirmation, not a failure notice. -/
theorem add_cmd_cex :
    (handle_updates_and_commands (fun _ => none)
       [⟨1, some ⟨7, "/add foo UCabc"⟩, none⟩] [] ⟨some 0, []⟩).resolverCalled
      = false ∧
    isCanonicalId "UCabc" = false ∧
    (handle_updates_and_commands (fun _ => none)
       [⟨2, some ⟨7, "/add foo xhandle"⟩, none⟩] [] ⟨some 0, []⟩).replies
      = [⟨7, "Added channel: foo\nhttps://www.youtube.com/feeds/videos.xml?channel_id=xhandle"⟩] ∧
    (handle_updates_and_commands (fun _ => none)
       [⟨2, some ⟨7, "/add foo xhandle"⟩, none⟩] [] ⟨some 0, []⟩).channels
      = [("foo", "https://www.youtube.com/feeds/videos.xml?channel_id=xhandle")] := by
  decide

/-- **C1 (amended).** For every processing of a `/add` command with a name
and a second argument: when the second argument does not start with `UC`
(not: is not canonical), resolution via the channel resolver is attempted,
and the resolved ID is used when resolution succeeds while the literal
argument is kept when it fails; the feed URL is built from the fixed
template and upserted into the registry under the name; and the reply is
always a confirmation containing the feed URL (no failure notice exists on
this path).  In particular `/add name UCxxxxxxxxxxxxxxxxxxxx` (20 trailing
characters) yields the registry entry
`name -> https://www.youtube.com/feeds/videos.xml?channel_id=UCxxxxxxxxxxxxxxxxxxxx`. -/
theorem add_cmd_amended_spec (fetch : String → Option String)
    (channels : Registry) (tg : TgState) (uid : Nat) (chat : Int)
    (name cid : String) (hn : noWsB name = true) (hi : noWsB cid = true)
    (hn0 : name ≠ "") (hi0 : cid ≠ "") :
    (handle_updates_and_commands fetch
       [⟨uid, some ⟨chat, "/add " ++ name ++ " " ++ cid⟩, none⟩] channels tg).resolverCalled
      = !pyStartsWith cid "UC" ∧
    (handle_updates_and_commands fetch
       [⟨uid, some ⟨chat, "/add " ++ name ++ " " ++ cid⟩, none⟩] channels tg).channels
      = upsertA channels name
          (feedUrlOf (if pyStartsWith cid "UC" then cid
                      else ((extract_channel_id_from_url fetch cid).1.getD cid))) ∧
    (handle_updates_and_commands fetch
       [⟨uid, some ⟨chat, "/add " ++ name ++ " " ++ cid⟩, none⟩] channels tg).replies
      = [⟨chat, "Added channel: " ++ name ++ "\n" ++
           feedUrlOf (if pyStartsWith cid "UC" then cid
                      else ((extract_channel_id_from_url fetch cid).1.getD cid))⟩] ∧
    lookupA (handle_updates_and_commands fetch
       [⟨uid, some ⟨chat, "/add name UCxxxxxxxxxxxxxxxxxxxx"⟩, none⟩] channels tg).channels
       "name"
      = some "https://www.youtube.com/feeds/videos.xml?channel_id=UCxxxxxxxxxxxxxxxxxxxx" := by
  obtain ⟨hch, hrep, hres⟩ := handle_single_proj fetch
    ⟨uid, some ⟨chat, "/add " ++ name ++ " " ++ cid⟩, none⟩ channels tg
  have hu : processUpdate fetch channels tg.subscribers
      ⟨uid, some ⟨chat, "/add " ++ name ++ " " ++ cid⟩, none⟩
      = processMessage fetch channels tg.subscribers chat ("/add " ++ name ++ " " ++ cid) := rfl
  have hpm := processMessage_add fetch channels tg.subscribers chat name cid hn hi hn0 hi0
  refine ⟨?_, ?_, ?_, ?_⟩
  · rw [hres, hu, hpm]
  · rw [hch, hu, hpm]
  · rw [hrep, hu, hpm]
  · obtain ⟨hch2, -, -⟩ := handle_single_proj fetch
      ⟨uid, some ⟨chat, "/add name UCxxxxxxxxxxxxxxxxxxxx"⟩, none⟩ channels tg
    have hu2 : processUpdate fetch channels tg.subscribers
        ⟨uid, some ⟨chat, "/add name UCxxxxxxxxxxxxxxxxxxxx"⟩, none⟩
        = processMessage fetch channels tg.subscribers chat
            ("/add " ++ "name" ++ " " ++ "UCxxxxxxxxxxxxxxxxxxxx") := rfl
    have hpm2 := processMessage_add fetch channels tg.subscribers chat
      "name" "UCxxxxxxxxxxxxxxxxxxxx" (by decide) (by decide) (by decide) (by decide)
    rw [hch2, hu2, hpm2]
    rw [show pyStartsWith "UCxxxxxxxxxxxxxxxxxxxx" "UC" = true from rfl]
    rw [if_pos rfl]
    exact lookupA_upsert channels "name" _

/-- Witness for the amended C1 at concrete arguments with a failing
resolver. -/
theorem add_cmd_amended_spec_witness :
    (handle_updates_and_commands (fun _ => none)
       [⟨1, some ⟨7, "/add foo xyz"⟩, none⟩] [] ⟨some 0, []⟩).resolverCalled
      = !pyStartsWith "xyz" "UC" ∧
    (handle_updates_and_commands (fun _ => none)
       [⟨1, some ⟨7, "/add foo xyz"⟩, none⟩] [] ⟨some 0, []⟩).channels
      = upsertA [] "foo"
          (feedUrlOf (if pyStartsWith "xyz" "UC" then "xyz"
                      else ((extract_channel_id_from_url (fun _ => none) "xyz").1.getD "xyz"))) ∧
    (handle_updates_and_commands (fun _ => none)
       [⟨1, some ⟨7, "/add foo xyz"⟩, none⟩] [] ⟨some 0, []⟩).replies
      = [⟨7, "Added channel: " ++ "foo" ++ "\n" ++
           feedUrlOf (if pyStartsWith "xyz" "UC" then "xyz"
                      else ((extract_channel_id_from_url (fun _ => none) "xyz").1.getD "xyz"))⟩] ∧
    lookupA (handle_updates_and_commands (fun _ => none)
       [⟨1, some ⟨7, "/add name UCxxxxxxxxxxxxxxxxxxxx"⟩, none⟩] [] ⟨some 0, []⟩).channels
       "name"
      = some "https://www.youtube.com/feeds/videos.xml?channel_id=UCxxxxxxxxxxxxxxxxxxxx" :=
  add_cmd_amended_spec (fun _ => none) [] ⟨some 0, []⟩ 1 7 "foo" "xyz"
    (by decide) (by decide) (by decide) (by decide)

/-- **C9.** For every `/add name arg2` command where `arg2` starts with
`UC` but does not match the full canonical ID pattern, no resolution is
attempted (the resolver instrumentation stays `false`) and the registry is
upserted with a feed URL embedding the literal `arg2`: the resolution gate
of the `/add` handler tests only the two-character prefix. -/
theorem add_prefix_gate_spec (fetch : String → Option String)
    (channels : Registry) (tg : TgState) (uid : Nat) (chat : Int)
    (name cid : String) (hn : noWsB name = true) (hi : noWsB cid = true)
    (hn0 : name ≠ "") (hi0 : cid ≠ "")
    (hUC : pyStartsWith cid "UC" = true) (_hnc : isCanonicalId cid = false) :
    (handle_updates_and_commands fetch
       [⟨uid, some ⟨chat, "/add " ++ name ++ " " ++ cid⟩, none⟩] channels tg).resolverCalled
      = false ∧
    (handle_updates_and_commands fetch
       [⟨uid, some ⟨chat, "/add " ++ name ++ " " ++ cid⟩, none⟩] channels tg).channels
      = upsertA channels name (feedUrlOf cid) ∧
    lookupA (handle_updates_and_commands fetch
       [⟨uid, some ⟨chat, "/add " ++ name ++ " " ++ cid⟩, none⟩] channels tg).channels name
      = some ("https://www.youtube.com/feeds/videos.xml?channel_id=" ++ cid) := by
  obtain ⟨hch, hrep, hres⟩ := handle_single_proj fetch
    ⟨uid, some ⟨chat, "/add " ++ name ++ " " ++ cid⟩, none⟩ channels tg
  have hu : processUpdate fetch channels tg.subscribers
      ⟨uid, some ⟨chat, "/add " ++ name ++ " " ++ cid⟩, none⟩
      = processMessage fetch channels tg.subscribers chat ("/add " ++ name ++ " " ++ cid) := rfl
  have hpm := processMessage_add fetch channels tg.subscribers chat name cid hn hi hn0 hi0
  refine ⟨?_, ?_, ?_⟩
  · rw [hres, hu, hpm, hUC]
    rfl
  · rw [hch, hu, hpm]
    rw [if_pos hUC]
  · rw [hch, hu, hpm]
    rw [if_pos hUC]
    exact lookupA_upsert channels name _

/-- Witness for C9 at the concrete non-canonical `UCabc`. -/
theorem add_prefix_gate_spec_witness :
    pyStartsWith "UCabc" "UC" = true ∧ isCanonicalId "UCabc" = false ∧
    (handle_updates_and_commands (fun _ => none)
       [⟨1, some ⟨7, "/add foo UCabc"⟩, none⟩] [] ⟨some 0, []⟩).resolverCalled = false ∧
    lookupA (handle_updates_and_commands (fun _ => none)
       [⟨1, some ⟨7, "/add foo UCabc"⟩, none⟩] [] ⟨some 0, []⟩).channels "foo"
      = some ("https://www.youtube.com/feeds/videos.xml?channel_id=" ++ "UCabc") := by
  have h := add_prefix_gate_spec (fun _ => none) [] ⟨some 0, []⟩ 1 7 "foo" "UCabc"
    (by decide) (by decide) (by decide) (by decide) (by decide) (by decide)
  exact ⟨by decide, by decide, h.1, h.2.2⟩

/-- **C7.** When the report builder runs with an empty portfolio and no new
videos, it still produces an HTML document containing the "no new videos"
placeholder, the "no stocks" placeholder, and both metals rows (Gold and
Silver), with `N/A` as the rendered last price for a metal whose price
fetch fails (the history oracle returns `none`). -/
theorem report_empty_spec (fmtFix2 fmtNum : ℚ → String)
    (spark : List ℚ → String) (date_str : String)
    (hist : String → String → String → Option (List ℚ)) :
    "<p>No new videos since last run.</p>"
        ∈ build_html_list fmtFix2 fmtNum spark date_str [] [] (fetch_metals hist) ∧
    "<p>No stocks in portfolio.</p>"
        ∈ build_html_list fmtFix2 fmtNum spark date_str [] [] (fetch_metals hist) ∧
    (∃ g s, fetch_metals hist = [("Gold", g), ("Silver", s)] ∧
       g.ticker = "GC=F" ∧ s.ticker = "SI=F" ∧
       metal_row fmtNum spark "Gold" g
           ∈ build_html_list fmtFix2 fmtNum spark date_str [] [] (fetch_metals hist) ∧
       metal_row fmtNum spark "Silver" s
           ∈ build_html_list fmtFix2 fmtNum spark date_str [] [] (fetch_metals hist) ∧
       (hist "GC=F" "2d" "1h" = none →
          metal_row fmtNum spark "Gold" g = "<h4>Gold (GC=F) — Last: N/A</h4>") ∧
       (hist "SI=F" "2d" "1h" = none →
          metal_row fmtNum spark "Silver" s = "<h4>Silver (SI=F) — Last: N/A</h4>")) := by
  refine ⟨?_, ?_,
    ⟨"GC=F", fetch_price_series hist "GC=F" "2d" "1h",
      (fetch_price_series hist "GC=F" "2d" "1h").getLast?⟩,
    ⟨"SI=F", fetch_price_series hist "SI=F" "2d" "1h",
      (fetch_price_series hist "SI=F" "2d" "1h").getLast?⟩,
    rfl, rfl, rfl, ?_, ?_, ?_, ?_⟩
  · simp [build_html_list]
  · simp [build_html_list]
  · simp [build_html_list, fetch_metals]
  · simp [build_html_list, fetch_metals]
  · intro h
    simp only [fetch_price_series, h]
    rfl
  · intro h
    simp only [fetch_price_series, h]
    rfl

/-- Witness for C7 with every price fetch failing. -/
theorem report_empty_spec_witness :
    "<p>No new videos since last run.</p>"
        ∈ build_html_list (fun _ => "F") (fun _ => "G") (fun _ => "S") "d" [] []
            (fetch_metals (fun _ _ _ => none)) ∧
    "<p>No stocks in portfolio.</p>"
        ∈ build_html_list (fun _ => "F") (fun _ => "G") (fun _ => "S") "d" [] []
            (fetch_metals (fun _ _ _ => none)) ∧
    "<h4>Gold (GC=F) — Last: N/A</h4>"
        ∈ build_html_list (fun _ => "F") (fun _ => "G") (fun _ => "S") "d" [] []
            (fetch_metals (fun _ _ _ => none)) := by
  obtain ⟨h1, h2, g, s, hm, hg, hs, hmg, hms, hna1, hna2⟩ :=
    report_empty_spec (fun _ => "F") (fun _ => "G") (fun _ => "S") "d" (fun _ _ _ => none)
  refine ⟨h1, h2, ?_⟩
  rw [← hna1 rfl]
  exact hmg

/-- **C8.** For every portfolio position with a fetched last price, the
rendered per-position profit/loss equals `(last − avgCost) × qty` (rendered
through the `%.2f` formatter); when no last price is available, the row
shows `N/A` for the last price and an empty profit/loss cell, and the row
still appears in the report rather than aborting it. -/
theorem portfolio_pl_spec (fmtFix2 fmtNum : ℚ → String)
    (spark : List ℚ → String) (tk : String) (info : PosInfo)
    (date_str : String) (nv : List VideoItem)
    (snap : List (String × PosInfo)) (metals : List (String × MetalInfo)) :
    (∀ l, info.last = some l →
       portfolio_row fmtFix2 fmtNum spark tk info =
         "<tr><td>" ++ tk ++ "</td><td>" ++ info.name ++ "</td><td>" ++
         fmtNum info.qty ++ "</td><td>" ++ fmtNum info.avg ++ "</td><td>" ++
         fmtFix2 l ++ "</td><td>" ++ fmtFix2 ((l - info.avg) * info.qty) ++
         "</td><td>" ++
         (if info.series = [] then ""
          else "<img src=\x27" ++ spark info.series ++ "\x27 alt=\x27trend\x27/>") ++
         "</td></tr>") ∧
    (info.last = none →
       portfolio_row fmtFix2 fmtNum spark tk info =
         "<tr><td>" ++ tk ++ "</td><td>" ++ info.name ++ "</td><td>" ++
         fmtNum info.qty ++ "</td><td>" ++ fmtNum info.avg ++ "</td><td>" ++
         "N/A" ++ "</td><td>" ++ "" ++ "</td><td>" ++
         (if info.series = [] then ""
          else "<img src=\x27" ++ spark info.series ++ "\x27 alt=\x27trend\x27/>") ++
         "</td></tr>") ∧
    ((tk, info) ∈ snap →
       portfolio_row fmtFix2 fmtNum spark tk info
         ∈ build_html_list fmtFix2 fmtNum spark date_str nv snap metals) := by
  refine ⟨?_, ?_, ?_⟩
  · intro l h
    simp only [portfolio_row, h]
  · intro h
    simp only [portfolio_row, h]
  · intro hmem
    have hs : snap ≠ [] := by rintro rfl; simp at hmem
    have hrow : portfolio_row fmtFix2 fmtNum spark tk info ∈
        snap.map (fun p => portfolio_row fmtFix2 fmtNum spark p.1 p.2) :=
      List.mem_map.mpr ⟨(tk, info), hmem, rfl⟩
    simp only [build_html_list, if_neg hs]
    simp only [List.mem_append]
    tauto

/-- Witness for C8 at a concrete position (last 3, avg 1, qty 2) and at a
position without a price. -/
theorem portfolio_pl_spec_witness :
    portfolio_row (fun _ => "F") (fun _ => "G") (fun _ => "S") "ABC"
        ⟨"Acme", 2, 1, some 3, []⟩
      = "<tr><td>" ++ "ABC" ++ "</td><td>" ++ "Acme" ++ "</td><td>" ++ "G" ++
        "</td><td>" ++ "G" ++ "</td><td>" ++ "F" ++ "</td><td>" ++ "F" ++
        "</td><td>" ++ "" ++ "</td></tr>" ∧
    portfolio_row (fun _ => "F") (fun _ => "G") (fun _ => "S") "ABC"
        ⟨"Acme", 2, 1, none, []⟩
      = "<tr><td>" ++ "ABC" ++ "</td><td>" ++ "Acme" ++ "</td><td>" ++ "G" ++
        "</td><td>" ++ "G" ++ "</td><td>" ++ "N/A" ++ "</td><td>" ++ "" ++
        "</td><td>" ++ "" ++ "</td></tr>" ∧
    portfolio_row (fun _ => "F") (fun _ => "G") (fun _ => "S") "ABC"
        ⟨"Acme", 2, 1, some 3, []⟩
      ∈ build_html_list (fun _ => "F") (fun _ => "G") (fun _ => "S") "d" []
          [("ABC", ⟨"Acme", 2, 1, some 3, []⟩)] [] := by
  refine ⟨?_, ?_, ?_⟩
  · exact (portfolio_pl_spec (fun _ => "F") (fun _ => "G") (fun _ => "S") "ABC"
      ⟨"Acme", 2, 1, some 3, []⟩ "d" [] [] []).1 3 rfl
  · exact (portfolio_pl_spec (fun _ => "F") (fun _ => "G") (fun _ => "S") "ABC"
      ⟨"Acme", 2, 1, none, []⟩ "d" [] [] []).2.1 rfl
  · exact (portfolio_pl_spec (fun _ => "F") (fun _ => "G") (fun _ => "S") "ABC"
      ⟨"Acme", 2, 1, some 3, []⟩ "d" [] [("ABC", ⟨"Acme", 2, 1, some 3, []⟩)] []).2.2
      (by simp)
